import Mathlib

/-
  Verification of the business-search core of the repository
  (src/app/search/_services/maps.ts, current version; types from
  src/app/search/_types/business.ts).

  The external Google Maps SDK calls (geocode, nearbySearch, getDetails) and
  the WHATWG URL parser are modelled as explicit inputs in an `Env` record:
  the code under verification is everything the service file itself does with
  their responses.  JavaScript string truthiness (`!x` is true for undefined
  and for the empty string) is modelled explicitly where the source relies
  on it.
-/

namespace BizFinder

/-- WebsiteType from business.ts: classification of a business's web presence. -/
inductive WebsiteType where
  | none
  | facebook
  | yelp
  | other
  | legitimate
deriving DecidableEq

/-- Geographic coordinates (JS numbers modelled as rationals; the source only
copies them, never computes with them). -/
structure LatLng where
  lat : ℚ
  lng : ℚ
deriving DecidableEq

/-- The slice of google.maps.places.PlaceResult the service reads.  Fields the
API may omit are `Option`; `geometry` is non-null-asserted by the source
(`place.geometry!.location!`), so it is modelled as present. -/
structure RawPlace where
  place_id : Option String
  name : Option String
  formatted_address : Option String
  geometry : LatLng
  website : Option String
  url : Option String
  formatted_phone_number : Option String
  types : Option (List String)
  business_status : Option String
  photos : Option (List Unit)
deriving DecidableEq

/-- SocialProfiles from business.ts. -/
structure SocialProfiles where
  facebook : Option String
  yelp : Option String
  instagram : Option String
  other : Option (List String)
deriving DecidableEq

/-- The improvement flags computed by mapPlaceToBusiness. -/
structure Improvements where
  needsPhone : Bool
  needsPhotos : Bool
  needsSocialMedia : Bool
  needsWebsite : Bool
deriving DecidableEq

/-- Business from business.ts.  `id`, `name`, `address` carry TypeScript
non-null assertions in the source, which are erased at runtime and pass the
possibly-absent value through, hence `Option`.  `businessStatus` is declared
`OPERATIONAL | TEMPORARILY_CLOSED | PERMANENTLY_CLOSED | undefined`, modelled
as `Option String`.  `lastUpdated` is the classification timestamp. -/
structure Business where
  id : Option String
  name : Option String
  address : Option String
  location : LatLng
  category : List String
  websiteType : WebsiteType
  websiteUrl : Option String
  socialProfiles : SocialProfiles
  phoneNumber : Option String
  lastUpdated : Nat
  searchQuery : String
  businessStatus : Option String
  improvements : Improvements
deriving DecidableEq

/-- JS truthiness test for an optional string: `!x` is true exactly when the
field is undefined or the empty string. -/
def jsFalsy : Option String → Bool
  | Option.none => true
  | some s => decide (s = "")

/-- `startsWithList l sub` is true when `sub` is an initial segment of `l`. -/
def startsWithList : List Char → List Char → Bool
  | _, [] => true
  | [], _ :: _ => false
  | c :: cs, d :: ds => decide (c = d) && startsWithList cs ds

/-- `containsList l sub` is true when `sub` occurs contiguously in `l`. -/
def containsList : List Char → List Char → Bool
  | [], sub => startsWithList [] sub
  | c :: cs, sub => startsWithList (c :: cs) sub || containsList cs sub

/-- Model of JavaScript `s.includes(sub)` (substring containment). -/
def strIncludes (s sub : String) : Bool :=
  containsList s.toList sub.toList

/-- Model of JavaScript `toLowerCase()` on hostnames: character-wise ASCII
lower-casing (domain names are ASCII at this point). -/
def strToLower (s : String) : String :=
  String.mk (s.toList.map Char.toLower)

/-- FACEBOOK_DOMAINS from maps.ts. -/
def FACEBOOK_DOMAINS : List String := ["facebook.com", "fb.com"]

/-- YELP_DOMAINS from maps.ts. -/
def YELP_DOMAINS : List String := ["yelp.com"]

/-- PLATFORM_DOMAINS from maps.ts: the fixed platform-domain denylist. -/
def PLATFORM_DOMAINS : List String :=
  ["yelp.com", "facebook.com", "fb.com", "instagram.com", "linkedin.com",
   "shopify.com", "wix.com", "squarespace.com", "weebly.com", "wordpress.com",
   "godaddy.com",
   "doordash.com", "ubereats.com", "grubhub.com", "opentable.com",
   "booksy.com", "vagaro.com",
   "yellowpages.com", "manta.com", "bbb.org", "tripadvisor.com"]

/-- determineWebsiteType from maps.ts.  `parseHost` models
`new URL(url).hostname` — `some` the hostname on success, `none` when the URL
constructor throws.  `!url` short-circuits on undefined or the empty string;
the hostname is lower-cased and tested for substring containment against the
three domain lists in order. -/
def determineWebsiteType (parseHost : String → Option String) (url : Option String) :
    WebsiteType :=
  match url with
  | Option.none => WebsiteType.none
  | some s =>
    if s = "" then WebsiteType.none
    else
      match parseHost s with
      | Option.none => WebsiteType.none
      | some host =>
        let domain := strToLower host
        if FACEBOOK_DOMAINS.any (fun fb => strIncludes domain fb) then WebsiteType.facebook
        else if YELP_DOMAINS.any (fun y => strIncludes domain y) then WebsiteType.yelp
        else if PLATFORM_DOMAINS.any (fun pf => strIncludes domain pf) then WebsiteType.other
        else WebsiteType.legitimate

/-- One step of the reduce inside extractSocialProfiles from maps.ts. -/
def extractSocialProfilesStep (parseHost : String → Option String)
    (profiles : SocialProfiles) (url : String) : SocialProfiles :=
  match parseHost url with
  | Option.none => profiles
  | some host =>
    let domain := strToLower host
    if FACEBOOK_DOMAINS.any (fun fb => strIncludes domain fb) then
      { profiles with facebook := some url }
    else if YELP_DOMAINS.any (fun y => strIncludes domain y) then
      { profiles with yelp := some url }
    else if strIncludes domain "instagram.com" then
      { profiles with instagram := some url }
    else
      { profiles with other := some ((profiles.other.getD []) ++ [url]) }

/-- extractSocialProfiles from maps.ts: a left fold of the step function over
the candidate URLs, starting from the empty record. -/
def extractSocialProfiles (parseHost : String → Option String) (urls : List String) :
    SocialProfiles :=
  urls.foldl (extractSocialProfilesStep parseHost)
    { facebook := Option.none, yelp := Option.none, instagram := Option.none,
      other := Option.none }

/-- genericCategories from mapPlaceToBusiness in maps.ts: the fixed denylist of
generic/administrative/geographic category tags. -/
def genericCategories : List String :=
  ["point_of_interest", "establishment", "business", "place", "premise",
   "store", "local_business", "general_contractor", "political", "geocode",
   "route", "street_address", "intersection", "street_number", "subpremise",
   "postal_code", "natural_feature", "floor", "room", "postal_town",
   "neighborhood", "locality",
   "administrative_area_level_1", "administrative_area_level_2",
   "administrative_area_level_3", "administrative_area_level_4",
   "administrative_area_level_5",
   "country", "sublocality",
   "sublocality_level_1", "sublocality_level_2", "sublocality_level_3",
   "sublocality_level_4", "sublocality_level_5"]

/-- The category-filtering step of mapPlaceToBusiness:
`place.types?.filter((type) => !genericCategories.includes(type)) || []`. -/
def filterCategories (types : Option (List String)) : List String :=
  match types with
  | some ts => ts.filter (fun t => decide (t ∉ genericCategories))
  | Option.none => []

/-- mapPlaceToBusiness from maps.ts.  `now` is the `new Date()` timestamp.
`place.url ? [place.url] : []` and `!place.formatted_phone_number` use JS
truthiness; `business_status` defaults to "OPERATIONAL" when the raw field is
falsy (absent or empty). -/
def mapPlaceToBusiness (parseHost : String → Option String) (place : RawPlace)
    (searchQuery : String) (now : Nat) : Business :=
  let website := place.website
  let websiteType := determineWebsiteType parseHost website
  let socialProfiles := extractSocialProfiles parseHost
    (match place.url with
     | some u => if u = "" then [] else [u]
     | Option.none => [])
  let businessStatus : Option String :=
    match place.business_status with
    | some s => if s = "" then some "OPERATIONAL" else some s
    | Option.none => some "OPERATIONAL"
  let improvements : Improvements :=
    { needsPhone := jsFalsy place.formatted_phone_number
      needsPhotos :=
        match place.photos with
        | Option.none => true
        | some l => decide (l.length < 3)
      needsSocialMedia := false
      needsWebsite := decide (websiteType ≠ WebsiteType.legitimate) }
  { id := place.place_id
    name := place.name
    address := place.formatted_address
    location := place.geometry
    category := filterCategories place.types
    websiteType := websiteType
    websiteUrl := website
    socialProfiles := socialProfiles
    phoneNumber := place.formatted_phone_number
    lastUpdated := now
    searchQuery := searchQuery
    businessStatus := businessStatus
    improvements := improvements }

/-- Outcome of one nearbySearch call: status OK with a (non-null) result list,
ZERO_RESULTS, or any other status. -/
inductive SearchStatus where
  | ok (results : List RawPlace)
  | zeroResults
  | other
deriving DecidableEq

/-- The promise wrapper around nearbySearch in searchBusinesses: OK resolves the
results, ZERO_RESULTS resolves the empty list, anything else rejects. -/
def tierOutcome : SearchStatus → Except Unit (List RawPlace)
  | SearchStatus.ok results => Except.ok results
  | SearchStatus.zeroResults => Except.ok []
  | SearchStatus.other => Except.error ()

/-- The mutable state of the tier loop: the insertion-ordered id-keyed map
`allPlaces` (a JS Map, modelled as an insertion-ordered association list) and
the running `totalCount` local variable. -/
structure TierState where
  allPlaces : List (String × RawPlace)
  totalCount : Nat
deriving DecidableEq

/-- One iteration of `for (const place of results)`: insert under the place id
when the id is truthy (present and non-empty) and not yet a key of the map;
otherwise leave the map unchanged (first occurrence wins). -/
def addPlace (acc : List (String × RawPlace)) (p : RawPlace) : List (String × RawPlace) :=
  match p.place_id with
  | some pid =>
    if pid ≠ "" ∧ pid ∉ acc.map Prod.fst then acc ++ [(pid, p)] else acc
  | Option.none => acc

/-- Folding one tier's result list into the dedupe map. -/
def addPlaces (acc : List (String × RawPlace)) (ps : List RawPlace) :
    List (String × RawPlace) :=
  ps.foldl addPlace acc

/-- The per-tier result count: length of the resolved list for a successful
tier, 0 for a rejected tier. -/
def tierResultCount (nearby : ℚ → SearchStatus) (r : ℚ) : Nat :=
  match tierOutcome (nearby r) with
  | Except.ok results => results.length
  | Except.error _ => 0

/-- The `for (const searchRadius of searchRadii)` loop of searchBusinesses:
break once the unique count has reached the target, merge a successful tier's
results into the map and add their count to totalCount, and skip a rejected
tier (the try/catch swallows the error and the loop continues). -/
def tierLoop (nearby : ℚ → SearchStatus) (target : Nat) :
    List ℚ → TierState → TierState
  | [], st => st
  | r :: rs, st =>
    if target ≤ st.allPlaces.length then st
    else
      match tierOutcome (nearby r) with
      | Except.ok results =>
        tierLoop nearby target rs
          { allPlaces := addPlaces st.allPlaces results
            totalCount := st.totalCount + results.length }
      | Except.error _ => tierLoop nearby target rs st

/-- The detail-fetch loop of searchBusinesses over the keys of the dedupe map:
break once enough detailed results are collected; a successful getDetails
appends the detailed place; a rejected one is caught and only that place is
skipped. -/
def detailLoop (details : String → Except Unit RawPlace) (target : Nat) :
    List String → List RawPlace → List RawPlace
  | [], acc => acc
  | k :: ks, acc =>
    if target ≤ acc.length then acc
    else
      match details k with
      | Except.ok p => detailLoop details target ks (acc ++ [p])
      | Except.error _ => detailLoop details target ks acc

/-- The radius-tiering step of searchBusinesses.  JS number arithmetic on these
values (halving, min, comparison) is exact, so rationals model it faithfully. -/
def searchRadii (radius : ℚ) : List ℚ :=
  if radius ≤ 2000 then [radius]
  else if radius ≤ 10000 then [min 2000 (radius / 2), radius]
  else [2000, 5000, 10000, radius]

/-- SearchParameters from business.ts; `limit` and `skip` are optional and
defaulted (20 and 0) by the destructuring in searchBusinesses. -/
structure SearchParameters where
  location : String
  radius : ℚ
  categories : Option (List String)
  excludeWebsiteTypes : Option (List WebsiteType)
  websiteType : Option WebsiteType
  limit : Option Nat
  skip : Option Nat

/-- SearchResult from business.ts (nextPageToken is never set by the code). -/
structure SearchResult where
  businesses : List Business
  totalCount : Nat
  hasMore : Bool
deriving DecidableEq

/-- The external world as searchBusinesses sees it in one call: whether the
geocode callback reported status OK with results, the nearbySearch response
per radius (the geocoded location and the category-derived type/keyword are
fixed for the whole call, so only the radius varies), the getDetails response
per place id, and the URL parser. -/
structure Env where
  geocodeOk : Bool
  nearby : ℚ → SearchStatus
  details : String → Except Unit RawPlace
  parseHost : String → Option String

/-- The dedupe map accumulated by the tier loop of searchBusinesses, starting
from the empty map with targetResults = limit × 3. -/
def uniquePlaces (env : Env) (params : SearchParameters) : List (String × RawPlace) :=
  (tierLoop env.nearby ((params.limit.getD 20) * 3) (searchRadii params.radius)
    { allPlaces := [], totalCount := 0 }).allPlaces

/-- The detailedPlaces list: the detail loop run over the keys of the dedupe
map in insertion order. -/
def detailedPlaces (env : Env) (params : SearchParameters) : List RawPlace :=
  detailLoop env.details ((params.limit.getD 20) * 3)
    ((uniquePlaces env params).map Prod.fst) []

/-- The filter predicate applied after classification in searchBusinesses:
drop PERMANENTLY_CLOSED; exact-match on an explicit websiteType filter;
otherwise drop members of a non-empty excludeWebsiteTypes list; otherwise
keep. -/
def keepBusiness (websiteType : Option WebsiteType)
    (excludeWebsiteTypes : Option (List WebsiteType)) (b : Business) : Bool :=
  if b.businessStatus = some "PERMANENTLY_CLOSED" then false
  else
    match websiteType with
    | some wt => decide (b.websiteType = wt)
    | Option.none =>
      match excludeWebsiteTypes with
      | some l => if 0 < l.length then decide (b.websiteType ∉ l) else true
      | Option.none => true

/-- Every detailed place mapped through mapPlaceToBusiness with the original
location string as the search query. -/
def classifiedBusinesses (env : Env) (params : SearchParameters) (now : Nat) :
    List Business :=
  (detailedPlaces env params).map
    (fun p => mapPlaceToBusiness env.parseHost p params.location now)

/-- The classified businesses after the filter predicate. -/
def filteredBusinesses (env : Env) (params : SearchParameters) (now : Nat) :
    List Business :=
  (classifiedBusinesses env params now).filter
    (keepBusiness params.websiteType params.excludeWebsiteTypes)

/-- searchBusinesses from maps.ts as a function of the external responses:
reject when geocoding does not report OK; otherwise classify, filter, slice
`[skip, skip+limit)`, and return the unique raw place count as totalCount and
`filtered count > skip + limit` as hasMore. -/
def searchBusinesses (env : Env) (params : SearchParameters) (now : Nat) :
    Except String SearchResult :=
  if env.geocodeOk then
    Except.ok
      { businesses :=
          ((filteredBusinesses env params now).drop (params.skip.getD 0)).take
            (params.limit.getD 20)
        totalCount := (uniquePlaces env params).length
        hasMore :=
          decide (params.skip.getD 0 + params.limit.getD 20 <
            (filteredBusinesses env params now).length) }
  else Except.error "Geocoding failed"

/-- If every member of `l1` is a member of `l2` and no member of `l2` satisfies
`p`, then no member of `l1` does. -/
theorem any_false_of_sub {l1 l2 : List String} (p : String → Bool)
    (hsub : ∀ x ∈ l1, x ∈ l2) (h : l2.any p = false) : l1.any p = false := by
  rw [List.any_eq_false] at h ⊢
  exact fun x hx => h x (hsub x hx)

/-- Inserting one place preserves distinctness of the map keys. -/
theorem addPlace_keys_nodup (acc : List (String × RawPlace)) (p : RawPlace)
    (h : (acc.map Prod.fst).Nodup) : ((addPlace acc p).map Prod.fst).Nodup := by
  unfold addPlace
  split
  next pid heq =>
    split
    next hc =>
      rw [List.map_append, List.nodup_append]
      refine ⟨h, List.nodup_singleton _, ?_⟩
      intro a ha hmem
      simp only [List.map_cons, List.map_nil, List.mem_singleton] at hmem
      exact hc.2 (hmem ▸ ha)
    next hc => exact h
  next heq => exact h

/-- Merging a tier's results preserves distinctness of the map keys. -/
theorem addPlaces_keys_nodup (ps : List RawPlace) :
    ∀ acc : List (String × RawPlace), (acc.map Prod.fst).Nodup →
      ((addPlaces acc ps).map Prod.fst).Nodup := by
  induction ps with
  | nil => exact fun acc h => h
  | cons p ps ih => exact fun acc h => ih (addPlace acc p) (addPlace_keys_nodup acc p h)

/-- Inserting one place grows the map by at most one entry. -/
theorem addPlace_length (acc : List (String × RawPlace)) (p : RawPlace) :
    (addPlace acc p).length ≤ acc.length + 1 := by
  unfold addPlace
  split
  next pid heq =>
    split
    next hc => simp
    next hc => exact Nat.le_succ _
  next heq => exact Nat.le_succ _

/-- Merging a tier's results grows the map by at most the result count. -/
theorem addPlaces_length (ps : List RawPlace) :
    ∀ acc : List (String × RawPlace),
      (addPlaces acc ps).length ≤ acc.length + ps.length := by
  induction ps with
  | nil => exact fun acc => Nat.le_refl _
  | cons p ps ih =>
    intro acc
    calc (addPlaces (addPlace acc p) ps).length
        ≤ (addPlace acc p).length + ps.length := ih _
      _ ≤ acc.length + 1 + ps.length := Nat.add_le_add_right (addPlace_length acc p) _
      _ = acc.length + (ps.length + 1) := by omega

/-- Once the unique count has reached the target, the tier loop does nothing. -/
theorem tierLoop_stop (nearby : ℚ → SearchStatus) (target : Nat) (radii : List ℚ)
    (st : TierState) (h : target ≤ st.allPlaces.length) :
    tierLoop nearby target radii st = st := by
  cases radii with
  | nil => rfl
  | cons r rs => unfold tierLoop; rw [if_pos h]

/-- The tier loop preserves distinctness of the map keys. -/
theorem tierLoop_keys_nodup (nearby : ℚ → SearchStatus) (target : Nat)
    (radii : List ℚ) :
    ∀ st : TierState, (st.allPlaces.map Prod.fst).Nodup →
      ((tierLoop nearby target radii st).allPlaces.map Prod.fst).Nodup := by
  induction radii with
  | nil => exact fun st h => h
  | cons r rs ih =>
    intro st h
    unfold tierLoop
    by_cases hb : target ≤ st.allPlaces.length
    · rw [if_pos hb]; exact h
    · rw [if_neg hb]
      cases tierOutcome (nearby r) with
      | ok results => exact ih _ (addPlaces_keys_nodup results st.allPlaces h)
      | error e => exact ih st h

/-- The map never grows past the starting size plus the per-tier result counts. -/
theorem tierLoop_length_le (nearby : ℚ → SearchStatus) (target : Nat)
    (radii : List ℚ) :
    ∀ st : TierState, (tierLoop nearby target radii st).allPlaces.length ≤
      st.allPlaces.length + (radii.map (fun r => tierResultCount nearby r)).sum := by
  induction radii with
  | nil => intro st; simp [tierLoop]
  | cons r rs ih =>
    intro st
    unfold tierLoop
    by_cases hb : target ≤ st.allPlaces.length
    · rw [if_pos hb]; exact Nat.le_add_right _ _
    · rw [if_neg hb]
      cases ht : tierOutcome (nearby r) with
      | ok results =>
        have h1 : (tierLoop nearby target rs
            { allPlaces := addPlaces st.allPlaces results,
              totalCount := st.totalCount + results.length }).allPlaces.length ≤
            (addPlaces st.allPlaces results).length +
              (rs.map (fun r => tierResultCount nearby r)).sum := ih _
        have h2 := addPlaces_length results st.allPlaces
        have h3 : tierResultCount nearby r = results.length := by
          unfold tierResultCount; rw [ht]
        simp only [List.map_cons, List.sum_cons, h3]
        omega
      | error e =>
        have h1 := ih st
        have h3 : tierResultCount nearby r = 0 := by
          unfold tierResultCount; rw [ht]
        simp only [List.map_cons, List.sum_cons, h3]
        omega

/-- Once enough details are collected, the detail loop does nothing. -/
theorem detailLoop_stop (details : String → Except Unit RawPlace) (target : Nat)
    (keys : List String) (acc : List RawPlace) (h : target ≤ acc.length) :
    detailLoop details target keys acc = acc := by
  cases keys with
  | nil => rfl
  | cons k ks => unfold detailLoop; rw [if_pos h]

/-- When every successful detail fetch reports the id it was asked for, the
detail loop over distinct keys yields places with pairwise distinct ids. -/
theorem detailLoop_ids_nodup (details : String → Except Unit RawPlace)
    (hc : ∀ k p, details k = Except.ok p → p.place_id = some k) (target : Nat)
    (keys : List String) :
    ∀ acc : List RawPlace, keys.Nodup →
      (acc.filterMap (fun p => p.place_id)).Nodup →
      (∀ i ∈ acc.filterMap (fun p => p.place_id), i ∉ keys) →
      ((detailLoop details target keys acc).filterMap (fun p => p.place_id)).Nodup := by
  induction keys with
  | nil => exact fun acc _ h2 _ => h2
  | cons k ks ih =>
    intro acc h1 h2 h3
    unfold detailLoop
    by_cases hb : target ≤ acc.length
    · rw [if_pos hb]; exact h2
    · rw [if_neg hb]
      cases hd : details k with
      | error e =>
        exact ih acc h1.of_cons h2
          (fun i hi hks => h3 i hi (List.mem_cons_of_mem _ hks))
      | ok p =>
        have hpid : p.place_id = some k := hc k p hd
        have hacc : (acc ++ [p]).filterMap (fun p => p.place_id) =
            acc.filterMap (fun p => p.place_id) ++ [k] := by
          rw [List.filterMap_append]
          simp [List.filterMap_cons, hpid]
        apply ih (acc ++ [p]) h1.of_cons
        · rw [hacc, List.nodup_append]
          refine ⟨h2, List.nodup_singleton _, ?_⟩
          intro a ha hmem
          rw [List.mem_singleton] at hmem
          exact h3 a ha (hmem ▸ List.mem_cons_self k ks)
        · intro i hi hks
          rw [hacc, List.mem_append, List.mem_singleton] at hi
          cases hi with
          | inl hi => exact h3 i hi (List.mem_cons_of_mem _ hks)
          | inr hi => exact (List.nodup_cons.mp h1).1 (hi ▸ hks)

/-- Category filtering never lets a denylisted tag through. -/
theorem filterCategories_no_generic (types : Option (List String)) :
    ∀ t ∈ filterCategories types, t ∉ genericCategories := by
  cases types with
  | none => intro t ht; cases ht
  | some ts =>
    intro t ht
    have := (List.mem_filter.mp ht).2
    exact of_decide_eq_true this

/-- Claim C1: for every input to determineWebsiteType, an absent URL yields
`none`; a URL the parser rejects yields `none`; a parsed URL whose lower-cased
hostname contains a Facebook-set domain yields `facebook`; else one containing
a Yelp domain yields `yelp`; else one matching the platform-domain denylist
yields `other`; and any other well-formed host yields `legitimate`.
`parseHost` models the URL constructor, which rejects the empty string. -/
theorem determineWebsiteType_spec (parseHost : String → Option String)
    (hEmpty : parseHost "" = Option.none) :
    (determineWebsiteType parseHost Option.none = WebsiteType.none)
    ∧ (∀ s, parseHost s = Option.none →
        determineWebsiteType parseHost (some s) = WebsiteType.none)
    ∧ (∀ s host, parseHost s = some host →
        FACEBOOK_DOMAINS.any (fun d => strIncludes (strToLower host) d) = true →
        determineWebsiteType parseHost (some s) = WebsiteType.facebook)
    ∧ (∀ s host, parseHost s = some host →
        FACEBOOK_DOMAINS.any (fun d => strIncludes (strToLower host) d) = false →
        YELP_DOMAINS.any (fun d => strIncludes (strToLower host) d) = true →
        determineWebsiteType parseHost (some s) = WebsiteType.yelp)
    ∧ (∀ s host, parseHost s = some host →
        FACEBOOK_DOMAINS.any (fun d => strIncludes (strToLower host) d) = false →
        YELP_DOMAINS.any (fun d => strIncludes (strToLower host) d) = false →
        PLATFORM_DOMAINS.any (fun d => strIncludes (strToLower host) d) = true →
        determineWebsiteType parseHost (some s) = WebsiteType.other)
    ∧ (∀ s host, parseHost s = some host →
        PLATFORM_DOMAINS.any (fun d => strIncludes (strToLower host) d) = false →
        determineWebsiteType parseHost (some s) = WebsiteType.legitimate) := by
  have hne : ∀ s (host : String), parseHost s = some host → ¬ (s = "") := by
    intro s host hp he
    rw [he, hEmpty] at hp
    cases hp
  refine ⟨rfl, ?_, ?_, ?_, ?_, ?_⟩
  · intro s hp
    by_cases hs : s = ""
    · simp [determineWebsiteType, hs]
    · simp [determineWebsiteType, hs, hp]
  · intro s host hp hfb
    simp [determineWebsiteType, hne s host hp, hp, hfb]
  · intro s host hp hfb hy
    simp [determineWebsiteType, hne s host hp, hp, hfb, hy]
  · intro s host hp hfb hy hpl
    simp [determineWebsiteType, hne s host hp, hp, hfb, hy, hpl]
  · intro s host hp hpl
    have hsubf : ∀ x ∈ FACEBOOK_DOMAINS, x ∈ PLATFORM_DOMAINS := by decide
    have hsuby : ∀ x ∈ YELP_DOMAINS, x ∈ PLATFORM_DOMAINS := by decide
    have hfb := any_false_of_sub _ hsubf hpl
    have hy := any_false_of_sub _ hsuby hpl
    simp [determineWebsiteType, hne s host hp, hp, hfb, hy, hpl]

/-- Concrete run of the C1 theorem: a Facebook URL classifies as facebook. -/
theorem determineWebsiteType_spec_witness :
    determineWebsiteType
      (fun s => if s = "https://www.facebook.com/somebiz" then some "www.facebook.com"
                else Option.none)
      (some "https://www.facebook.com/somebiz") = WebsiteType.facebook :=
  (determineWebsiteType_spec _ rfl).2.2.1 "https://www.facebook.com/somebiz"
    "www.facebook.com" rfl rfl

/-- Claim C6: the derived radius tiers are [radius] when radius ≤ 2000,
[min(2000, radius/2), radius] when 2000 < radius ≤ 10000, and
[2000, 5000, 10000, radius] when radius > 10000. -/
theorem searchRadii_spec (radius : ℚ) :
    (radius ≤ 2000 ∧ searchRadii radius = [radius])
    ∨ (2000 < radius ∧ radius ≤ 10000 ∧
        searchRadii radius = [min 2000 (radius / 2), radius])
    ∨ (10000 < radius ∧ searchRadii radius = [2000, 5000, 10000, radius]) := by
  rcases le_or_lt radius 2000 with h1 | h1
  · exact Or.inl ⟨h1, by rw [searchRadii, if_pos h1]⟩
  · rcases le_or_lt radius 10000 with h2 | h2
    · exact Or.inr (Or.inl ⟨h1, h2,
        by rw [searchRadii, if_neg (not_le.mpr h1), if_pos h2]⟩)
    · exact Or.inr (Or.inr ⟨h2,
        by rw [searchRadii, if_neg (not_le.mpr h1), if_neg (not_le.mpr h2)]⟩)

/-- A raw place whose phone field is present but empty: JavaScript `!""` is
true, so the code flags it as needing a phone. -/
def placeEmptyPhone : RawPlace :=
  { place_id := some "p", name := some "n", formatted_address := some "a",
    geometry := { lat := 0, lng := 0 }, website := Option.none,
    url := Option.none, formatted_phone_number := some "",
    types := Option.none, business_status := Option.none,
    photos := Option.none }

/-- Claim C7 as stated fails: a place with an empty-string phone field gets
needsPhone = true although the phone field is not absent. -/
theorem improvements_counterexample :
    ¬ (((mapPlaceToBusiness (fun _ => Option.none) placeEmptyPhone "q" 0).improvements.needsPhone = true) ↔
        placeEmptyPhone.formatted_phone_number = Option.none) := by
  intro h
  have h2 := h.mp rfl
  cases h2

/-- Claim C7 amended: needsPhone is true iff the phone field is absent or
empty; needsPhotos iff the photo list is absent or has fewer than 3 entries;
needsSocialMedia is always false; needsWebsite iff websiteType is not
legitimate — equivalently websiteType = legitimate iff needsWebsite is
false. -/
theorem improvements_spec (parseHost : String → Option String) (place : RawPlace)
    (q : String) (now : Nat) :
    ((mapPlaceToBusiness parseHost place q now).improvements.needsPhone = true ↔
      (place.formatted_phone_number = Option.none ∨
        place.formatted_phone_number = some ""))
    ∧ ((mapPlaceToBusiness parseHost place q now).improvements.needsPhotos = true ↔
      (place.photos = Option.none ∨ ∃ l, place.photos = some l ∧ l.length < 3))
    ∧ (mapPlaceToBusiness parseHost place q now).improvements.needsSocialMedia = false
    ∧ ((mapPlaceToBusiness parseHost place q now).improvements.needsWebsite = true ↔
      (mapPlaceToBusiness parseHost place q now).websiteType ≠ WebsiteType.legitimate)
    ∧ ((mapPlaceToBusiness parseHost place q now).websiteType = WebsiteType.legitimate ↔
      (mapPlaceToBusiness parseHost place q now).improvements.needsWebsite = false) := by
  refine ⟨?_, ?_, rfl, ?_, ?_⟩
  · show jsFalsy place.formatted_phone_number = true ↔ _
    cases hp : place.formatted_phone_number with
    | none => simp [jsFalsy]
    | some s => simp [jsFalsy]
  · show (match place.photos with
      | Option.none => true
      | some l => decide (l.length < 3)) = true ↔ _
    cases hp : place.photos with
    | none => simp
    | some l => simp
  · show decide (determineWebsiteType parseHost place.website ≠ WebsiteType.legitimate) = true ↔ _
    simp only [decide_eq_true_eq]
    exact Iff.rfl
  · show _ ↔ decide (determineWebsiteType parseHost place.website ≠ WebsiteType.legitimate) = false
    simp only [decide_eq_false_iff_not, not_not]
    exact Iff.rfl

/-- Claim C9: classification is deterministic up to the timestamp — the same
raw place and query classified at two different times yield the same
websiteType, category, and improvements. -/
theorem mapPlaceToBusiness_deterministic (parseHost : String → Option String)
    (place : RawPlace) (q : String) (t1 t2 : Nat) :
    (mapPlaceToBusiness parseHost place q t1).websiteType =
      (mapPlaceToBusiness parseHost place q t2).websiteType
    ∧ (mapPlaceToBusiness parseHost place q t1).category =
      (mapPlaceToBusiness parseHost place q t2).category
    ∧ (mapPlaceToBusiness parseHost place q t1).improvements =
      (mapPlaceToBusiness parseHost place q t2).improvements :=
  ⟨rfl, rfl, rfl⟩

/-- Claim C10: when the raw business-status field is absent, mapPlaceToBusiness
sets businessStatus to OPERATIONAL — the unknown/undefined case is never
produced — so such a business is never dropped by the permanently-closed
filter. -/
theorem businessStatus_default_spec (parseHost : String → Option String)
    (place : RawPlace) (q : String) (now : Nat)
    (h : place.business_status = Option.none) :
    (mapPlaceToBusiness parseHost place q now).businessStatus = some "OPERATIONAL"
    ∧ (mapPlaceToBusiness parseHost place q now).businessStatus ≠ Option.none
    ∧ (mapPlaceToBusiness parseHost place q now).businessStatus ≠
        some "PERMANENTLY_CLOSED"
    ∧ keepBusiness Option.none Option.none
        (mapPlaceToBusiness parseHost place q now) = true := by
  have hs : (mapPlaceToBusiness parseHost place q now).businessStatus =
      some "OPERATIONAL" := by
    show (match place.business_status with
      | some s => if s = "" then some "OPERATIONAL" else some s
      | Option.none => some "OPERATIONAL") = some "OPERATIONAL"
    rw [h]
  have hs2 : (mapPlaceToBusiness parseHost place q now).businessStatus ≠
      some "PERMANENTLY_CLOSED" := by
    rw [hs]; decide
  refine ⟨hs, by rw [hs]; decide, hs2, ?_⟩
  rw [keepBusiness, if_neg hs2]

/-- A raw place with no business status and no phone. -/
def placeNoStatus : RawPlace :=
  { place_id := some "p2", name := some "n2", formatted_address := some "a2",
    geometry := { lat := 0, lng := 0 }, website := Option.none,
    url := Option.none, formatted_phone_number := Option.none,
    types := Option.none, business_status := Option.none,
    photos := Option.none }

/-- Concrete run of the C10 theorem on a place without a status field. -/
theorem businessStatus_default_spec_witness :
    (mapPlaceToBusiness (fun _ => Option.none) placeNoStatus "q" 0).businessStatus =
      some "OPERATIONAL"
    ∧ keepBusiness Option.none Option.none
        (mapPlaceToBusiness (fun _ => Option.none) placeNoStatus "q" 0) = true :=
  ⟨(businessStatus_default_spec (fun _ => Option.none) placeNoStatus "q" 0 rfl).1,
   (businessStatus_default_spec (fun _ => Option.none) placeNoStatus "q" 0 rfl).2.2.2⟩

/-- Claim C8: category filtering removes exactly the denylisted tags —
no denylisted tag survives, the relative order of survivors is preserved,
repeated survivors are not deduplicated — and hence no constructed Business
category list contains a denylisted tag. -/
theorem filterCategories_spec (ts : List String) :
    (∀ t ∈ filterCategories (some ts), t ∉ genericCategories)
    ∧ (filterCategories (some ts)).Sublist ts
    ∧ (∀ t, t ∉ genericCategories →
        (filterCategories (some ts)).count t = ts.count t)
    ∧ (∀ (parseHost : String → Option String) (place : RawPlace) (q : String)
        (now : Nat),
        ∀ t ∈ (mapPlaceToBusiness parseHost place q now).category,
          t ∉ genericCategories) := by
  refine ⟨filterCategories_no_generic (some ts), ?_, ?_, ?_⟩
  · show (ts.filter (fun t => decide (t ∉ genericCategories))).Sublist ts
    exact List.filter_sublist ts
  · intro t ht
    show (ts.filter (fun t => decide (t ∉ genericCategories))).count t = ts.count t
    exact List.count_filter (decide_eq_true ht)
  · intro parseHost place q now t ht
    exact filterCategories_no_generic place.types t ht

/-- Concrete run of the C8 theorem: a duplicated surviving tag keeps its
multiplicity. -/
theorem filterCategories_spec_witness :
    (filterCategories (some ["restaurant", "locality", "restaurant"])).count
        "restaurant" =
      (["restaurant", "locality", "restaurant"] : List String).count "restaurant" :=
  (filterCategories_spec ["restaurant", "locality", "restaurant"]).2.2.1
    "restaurant" (by decide)

/-- Claim C2: after classification in searchBusinesses, a permanently closed
business is dropped regardless of the filter parameters; with an explicit
websiteType filter exactly the exact matches are kept; else with a non-empty
excludeWebsiteTypes list exactly the non-members are kept; and with neither
filter every remaining classified business passes. -/
theorem searchFilter_spec (wt : Option WebsiteType)
    (ex : Option (List WebsiteType)) (b : Business) :
    (b.businessStatus = some "PERMANENTLY_CLOSED" → keepBusiness wt ex b = false)
    ∧ (b.businessStatus ≠ some "PERMANENTLY_CLOSED" →
        ((∀ w, wt = some w → (keepBusiness wt ex b = true ↔ b.websiteType = w))
         ∧ (∀ l, wt = Option.none → ex = some l → l ≠ [] →
             (keepBusiness wt ex b = true ↔ b.websiteType ∉ l))
         ∧ (wt = Option.none → (ex = Option.none ∨ ex = some []) →
             keepBusiness wt ex b = true)))
    ∧ (∀ (env : Env) (params : SearchParameters) (now : Nat),
        b ∈ filteredBusinesses env params now ↔
          (b ∈ classifiedBusinesses env params now ∧
            keepBusiness params.websiteType params.excludeWebsiteTypes b = true)) := by
  refine ⟨?_, ?_, ?_⟩
  · intro h
    rw [keepBusiness.eq_def, if_pos h]
  · intro hne
    refine ⟨?_, ?_, ?_⟩
    · intro w hw
      subst hw
      rw [keepBusiness.eq_def, if_neg hne]
      show decide (b.websiteType = w) = true ↔ b.websiteType = w
      simp only [decide_eq_true_eq]
    · intro l hwt hex hl
      subst hwt
      subst hex
      rw [keepBusiness.eq_def, if_neg hne]
      show (if 0 < l.length then decide (b.websiteType ∉ l) else true) = true ↔
        b.websiteType ∉ l
      rw [if_pos (List.length_pos.mpr hl)]
      simp only [decide_eq_true_eq]
    · intro hwt hex
      subst hwt
      rcases hex with hex | hex
      · subst hex
        rw [keepBusiness.eq_def, if_neg hne]
      · subst hex
        rw [keepBusiness.eq_def, if_neg hne]
        rfl
  · intro env params now
    show b ∈ (classifiedBusinesses env params now).filter
      (keepBusiness params.websiteType params.excludeWebsiteTypes) ↔ _
    rw [List.mem_filter]

/-- A concrete operational business classified as facebook. -/
def testBusiness : Business :=
  mapPlaceToBusiness
    (fun s => if s = "https://www.facebook.com/somebiz" then some "www.facebook.com"
              else Option.none)
    { place_id := some "p3", name := some "n3", formatted_address := some "a3",
      geometry := { lat := 0, lng := 0 },
      website := some "https://www.facebook.com/somebiz",
      url := Option.none, formatted_phone_number := Option.none,
      types := Option.none, business_status := some "OPERATIONAL",
      photos := Option.none } "q" 0

/-- Concrete run of the C2 theorem: with an explicit facebook filter, the
facebook-classified operational business is kept. -/
theorem searchFilter_spec_witness :
    keepBusiness (some WebsiteType.facebook) Option.none testBusiness = true :=
  ((((searchFilter_spec (some WebsiteType.facebook) Option.none
    testBusiness).2.1 (by decide)).1 WebsiteType.facebook rfl).mpr rfl)

/-- Claim C3: searchBusinesses returns the filtered list sliced to
[skip, skip+limit) — so at most limit businesses — hasMore is true iff the
filtered count exceeds skip + limit, and totalCount is the unique raw place
count accumulated before classification and filtering. -/
theorem searchBusinesses_pagination (env : Env) (params : SearchParameters)
    (now : Nat) (res : SearchResult)
    (h : searchBusinesses env params now = Except.ok res) :
    res.businesses =
      ((filteredBusinesses env params now).drop (params.skip.getD 0)).take
        (params.limit.getD 20)
    ∧ res.businesses.length ≤ params.limit.getD 20
    ∧ (res.hasMore = true ↔
        params.skip.getD 0 + params.limit.getD 20 <
          (filteredBusinesses env params now).length)
    ∧ res.totalCount = (uniquePlaces env params).length := by
  rw [searchBusinesses] at h
  by_cases hg : env.geocodeOk = true
  · rw [if_pos hg] at h
    injection h with h2
    subst h2
    refine ⟨rfl, ?_, ?_, rfl⟩
    · show (((filteredBusinesses env params now).drop
        (params.skip.getD 0)).take (params.limit.getD 20)).length ≤ _
      rw [List.length_take]
      exact Nat.min_le_left _ _
    · show decide (params.skip.getD 0 + params.limit.getD 20 <
        (filteredBusinesses env params now).length) = true ↔ _
      simp only [decide_eq_true_eq]
  · rw [if_neg hg] at h
    exact Except.noConfusion h

/-- The external world for the concrete runs: geocode succeeds, the only tier
reports ZERO_RESULTS, details always fail, the URL parser always rejects. -/
def testEnv : Env :=
  { geocodeOk := true
    nearby := fun _ => SearchStatus.zeroResults
    details := fun _ => Except.error ()
    parseHost := fun _ => Option.none }

/-- Concrete parameters: a 1500 m search with limit 2 and no filters. -/
def testParams : SearchParameters :=
  { location := "loc", radius := 1500, categories := Option.none,
    excludeWebsiteTypes := Option.none, websiteType := Option.none,
    limit := some 2, skip := some 0 }

/-- Concrete run of the C3 theorem on an empty search result. -/
theorem searchBusinesses_pagination_witness :
    searchBusinesses testEnv testParams 0 =
      Except.ok { businesses := [], totalCount := 0, hasMore := false }
    ∧ ({ businesses := [], totalCount := 0, hasMore := false } :
        SearchResult).businesses.length ≤ testParams.limit.getD 20 :=
  ⟨rfl, (searchBusinesses_pagination testEnv testParams 0 _ rfl).2.1⟩

/-- Claim C4: aggregation dedupes by place id with first occurrence winning, so
the map keys — and, when detail fetches report the id they were asked for, the
ids in the detailed list — are pairwise distinct; the unique count never
exceeds the sum of per-tier result counts; and the tier loop stops once the
unique count has reached the target of limit × 3. -/
theorem aggregation_dedup_spec (env : Env) (params : SearchParameters)
    (hc : ∀ k p, env.details k = Except.ok p → p.place_id = some k) :
    ((uniquePlaces env params).map Prod.fst).Nodup
    ∧ ((detailedPlaces env params).filterMap (fun p => p.place_id)).Nodup
    ∧ (∀ (nearby : ℚ → SearchStatus) (target : Nat) (radii : List ℚ),
        (tierLoop nearby target radii
          { allPlaces := [], totalCount := 0 }).allPlaces.length ≤
          (radii.map (fun r => tierResultCount nearby r)).sum)
    ∧ (∀ (nearby : ℚ → SearchStatus) (target : Nat) (radii : List ℚ)
        (st : TierState), target ≤ st.allPlaces.length →
        tierLoop nearby target radii st = st)
    ∧ (∀ (acc : List (String × RawPlace)) (p : RawPlace) (pid : String),
        pid ∈ acc.map Prod.fst →
        (addPlace acc p).filter (fun e => decide (e.1 = pid)) =
          acc.filter (fun e => decide (e.1 = pid))) := by
  have h1 : ((uniquePlaces env params).map Prod.fst).Nodup :=
    tierLoop_keys_nodup _ _ _ _ List.nodup_nil
  refine ⟨h1, ?_, ?_, ?_, ?_⟩
  · exact detailLoop_ids_nodup env.details hc _ _ [] h1 List.nodup_nil
      (by intro i hi; simp at hi)
  · intro nearby target radii
    have h2 := tierLoop_length_le nearby target radii
      { allPlaces := [], totalCount := 0 }
    simpa using h2
  · exact fun nearby target radii st h => tierLoop_stop nearby target radii st h
  · intro acc p pid hpid
    unfold addPlace
    split
    next pid2 heq =>
      split
      next hcnd =>
        rw [List.filter_append]
        have hnil : (([(pid2, p)] : List (String × RawPlace)).filter
            (fun e => decide (e.1 = pid))) = [] := by
          have hne2 : pid2 ≠ pid := fun he => hcnd.2 (he ▸ hpid)
          simp [List.filter_cons, hne2]
        rw [hnil, List.append_nil]
      next hcnd => rfl
    next => rfl

/-- Concrete run of the C4 theorem: the dedupe invariants on the test search. -/
theorem aggregation_dedup_spec_witness :
    ((uniquePlaces testEnv testParams).map Prod.fst).Nodup
    ∧ ((detailedPlaces testEnv testParams).filterMap (fun p => p.place_id)).Nodup :=
  ⟨(aggregation_dedup_spec testEnv testParams
      (fun _ _ h => Except.noConfusion h)).1,
   (aggregation_dedup_spec testEnv testParams
      (fun _ _ h => Except.noConfusion h)).2.1⟩

/-- Claim C5: a ZERO_RESULTS tier is a valid empty result; any other non-ok
tier status only skips that tier and the loop continues; a failed detail fetch
skips only that place; and a failed geocode rejects the whole call with an
error surfaced to the caller. -/
theorem error_handling_spec :
    (tierOutcome SearchStatus.zeroResults = Except.ok ([] : List RawPlace))
    ∧ (∀ results : List RawPlace,
        tierOutcome (SearchStatus.ok results) = Except.ok results)
    ∧ (∀ (nearby : ℚ → SearchStatus) (target : Nat) (r : ℚ) (rs : List ℚ)
        (st : TierState), st.allPlaces.length < target →
        nearby r = SearchStatus.other →
        tierLoop nearby target (r :: rs) st = tierLoop nearby target rs st)
    ∧ (∀ (details : String → Except Unit RawPlace) (target : Nat) (k : String)
        (ks : List String) (acc : List RawPlace), acc.length < target →
        details k = Except.error () →
        detailLoop details target (k :: ks) acc = detailLoop details target ks acc)
    ∧ (∀ (env : Env) (params : SearchParameters) (now : Nat),
        env.geocodeOk = false →
        searchBusinesses env params now = Except.error "Geocoding failed") := by
  refine ⟨rfl, fun results => rfl, ?_, ?_, ?_⟩
  · intro nearby target r rs st hlt hother
    have he : tierLoop nearby target (r :: rs) st =
        if target ≤ st.allPlaces.length then st
        else match tierOutcome (nearby r) with
          | Except.ok results => tierLoop nearby target rs
              { allPlaces := addPlaces st.allPlaces results,
                totalCount := st.totalCount + results.length }
          | Except.error _ => tierLoop nearby target rs st := rfl
    rw [he, if_neg (Nat.not_le.mpr hlt), hother]
    rfl
  · intro details target k ks acc hlt herr
    have he : detailLoop details target (k :: ks) acc =
        if target ≤ acc.length then acc
        else match details k with
          | Except.ok p => detailLoop details target ks (acc ++ [p])
          | Except.error _ => detailLoop details target ks acc := rfl
    rw [he, if_neg (Nat.not_le.mpr hlt), herr]
  · intro env params now hg
    rw [searchBusinesses, if_neg (by rw [hg]; exact Bool.false_ne_true)]

/-- The external world with a failing geocode. -/
def testEnvBad : Env :=
  { geocodeOk := false
    nearby := fun _ => SearchStatus.other
    details := fun _ => Except.error ()
    parseHost := fun _ => Option.none }

/-- Concrete runs of the C5 theorem: a failed tier is skipped, a failed detail
fetch is skipped, and a failed geocode rejects the call. -/
theorem error_handling_spec_witness :
    tierLoop (fun _ => SearchStatus.other) 6 [1500]
        { allPlaces := [], totalCount := 0 } =
      tierLoop (fun _ => SearchStatus.other) 6 []
        { allPlaces := [], totalCount := 0 }
    ∧ detailLoop (fun _ => Except.error ()) 6 ["k"] [] =
        detailLoop (fun _ => Except.error ()) 6 [] []
    ∧ searchBusinesses testEnvBad testParams 0 = Except.error "Geocoding failed" :=
  ⟨error_handling_spec.2.2.1 _ 6 1500 [] _ (by decide) rfl,
   error_handling_spec.2.2.2.1 _ 6 "k" [] [] (by decide) rfl,
   error_handling_spec.2.2.2.2 testEnvBad testParams 0 rfl⟩

end BizFinder
